import Mathlib

/-!
# Request parameters of the Go client (`sources/go/kalturaclient/param.go`)

The Go file declares one struct, `Param`, and six functions that build it:
`KS`, `Language`, `RequestId`, `Currency`, `UserId` and `ResponseProfile`.
Each function returns a struct literal with a constant `key`, the argument
as `value`, and a constant `inBody` flag.

The embedding below follows the file declaration by declaration.  The field
`value` has the Go type `interface{}`; its dynamic values are represented by
the tree type `GoValue`.
-/

namespace kalturaclient

/-- Dynamic values that a Go `interface{}` can hold: the nil interface,
booleans, integers, strings, sequences (slices and arrays) and structured
objects (structs and maps, as a list of named fields).  Equality on this type
is structural equality. -/
inductive GoValue where
  | nil : GoValue
  | bool (b : Bool) : GoValue
  | int (n : Int) : GoValue
  | str (s : String) : GoValue
  | list (items : List GoValue) : GoValue
  | object (fields : List (String × GoValue)) : GoValue

/-- Go: `type Param struct { key string; value interface{}; inBody bool }`. -/
structure Param where
  key : String
  value : GoValue
  inBody : Bool

/-- Go: `func KS(value string) Param`.  The string argument is stored in the
`interface{}` field, which boxes it as a string-typed dynamic value. -/
def KS (value : String) : Param :=
  { key := "ks", value := GoValue.str value, inBody := true }

/-- Go: `func Language(value string) Param`. -/
def Language (value : String) : Param :=
  { key := "language", value := GoValue.str value, inBody := true }

/-- Go: `func RequestId(value string) Param`. -/
def RequestId (value : String) : Param :=
  { key := "x-kaltura-session-id", value := GoValue.str value, inBody := false }

/-- Go: `func Currency (value string) Param`. -/
def Currency (value : String) : Param :=
  { key := "currency", value := GoValue.str value, inBody := true }

/-- Go: `func UserId(value string) Param`. -/
def UserId (value : String) : Param :=
  { key := "userId", value := GoValue.str value, inBody := true }

/-- Go: `func ResponseProfile(value interface{}) Param`.  The argument already
has the type of the field, so it is stored as it is. -/
def ResponseProfile (value : GoValue) : Param :=
  { key := "responseProfile", value := value, inBody := true }

/-- The structured value of the response-profile scenario:
`{type:"include", fields:["id","name"]}`. -/
def includeProfile : GoValue :=
  GoValue.object
    [("type", GoValue.str "include"),
     ("fields", GoValue.list [GoValue.str "id", GoValue.str "name"])]

/-- Field-wise agreement of two parameters: the same `key`, the same `value`
and the same `inBody`. -/
def Param.FieldsEq (p q : Param) : Prop :=
  p.key = q.key ∧ p.value = q.value ∧ p.inBody = q.inBody

/-- Two parameters that differ, and differ in the `value` field only: the
values are different, the keys and the placements are the same. -/
def Param.DiffersInValueOnly (p q : Param) : Prop :=
  p ≠ q ∧ p.value ≠ q.value ∧ p.key = q.key ∧ p.inBody = q.inBody

/-- The six functions of `param.go` that return a `Param`, by name. -/
inductive Ctor where
  | KS
  | Language
  | RequestId
  | Currency
  | UserId
  | ResponseProfile
  deriving DecidableEq, Repr

/-- One call of a function of `param.go`: the function together with its
argument, a `string` for the five scalar functions and an `interface{}` value
for `ResponseProfile`. -/
inductive Call where
  | KS (value : String)
  | Language (value : String)
  | RequestId (value : String)
  | Currency (value : String)
  | UserId (value : String)
  | ResponseProfile (value : GoValue)

/-- The function that a call invokes. -/
def Call.ctor : Call → Ctor
  | Call.KS _ => Ctor.KS
  | Call.Language _ => Ctor.Language
  | Call.RequestId _ => Ctor.RequestId
  | Call.Currency _ => Ctor.Currency
  | Call.UserId _ => Ctor.UserId
  | Call.ResponseProfile _ => Ctor.ResponseProfile

/-- The `Param` that a call returns: the Go function applied to the argument. -/
def Call.result : Call → Param
  | Call.KS v => kalturaclient.KS v
  | Call.Language v => kalturaclient.Language v
  | Call.RequestId v => kalturaclient.RequestId v
  | Call.Currency v => kalturaclient.Currency v
  | Call.UserId v => kalturaclient.UserId v
  | Call.ResponseProfile v => kalturaclient.ResponseProfile v

/-- C1: for every string `v`, each of the four body-bound scalar constructors
returns exactly the `Param` of the table, with the value stored untransformed:
`KS v` has key `"ks"`, `Language v` key `"language"`, `Currency v` key
`"currency"`, `UserId v` key `"userId"`; all four carry `v` itself, boxed as a
string, and have `inBody = true`. -/
theorem scalar_body_constructors (v : String) :
    KS v = { key := "ks", value := GoValue.str v, inBody := true } ∧
    Language v = { key := "language", value := GoValue.str v, inBody := true } ∧
    Currency v = { key := "currency", value := GoValue.str v, inBody := true } ∧
    UserId v = { key := "userId", value := GoValue.str v, inBody := true } :=
  ⟨rfl, rfl, rfl, rfl⟩

/-- The four scenarios of C1 at their concrete inputs. -/
theorem scalar_body_scenarios :
    KS "abc123" = ⟨"ks", GoValue.str "abc123", true⟩ ∧
    Language "en" = ⟨"language", GoValue.str "en", true⟩ ∧
    Currency "USD" = ⟨"currency", GoValue.str "USD", true⟩ ∧
    UserId "u-9" = ⟨"userId", GoValue.str "u-9", true⟩ :=
  ⟨rfl, rfl, rfl, rfl⟩

/-- C2: for every string `v`, `RequestId v` is the `Param` with key
`"x-kaltura-session-id"`, value `v` untransformed and `inBody = false`: it is
header-bound, not body-bound.  The last conjunct is the scenario `"req-42"`. -/
theorem requestId_header_bound (v : String) :
    RequestId v =
      { key := "x-kaltura-session-id", value := GoValue.str v, inBody := false } ∧
    (RequestId v).inBody ≠ true ∧
    RequestId "req-42" = ⟨"x-kaltura-session-id", GoValue.str "req-42", false⟩ :=
  ⟨rfl, by simp [RequestId], rfl⟩

/-- C3: for every dynamic value `x` (string, structured object, list or nil),
`ResponseProfile x` is the `Param` with key `"responseProfile"`, value `x` and
`inBody = true`, and reading the `value` field back gives `x` again.  The last
conjunct is the scenario `{type:"include", fields:["id","name"]}`. -/
theorem responseProfile_roundtrip (x : GoValue) :
    ResponseProfile x = { key := "responseProfile", value := x, inBody := true } ∧
    (ResponseProfile x).value = x ∧
    (ResponseProfile includeProfile).value =
      GoValue.object
        [("type", GoValue.str "include"),
         ("fields", GoValue.list [GoValue.str "id", GoValue.str "name"])] :=
  ⟨rfl, rfl, rfl⟩

/-- C4: no constructor fails.  Each of the six functions returns a `Param` for
every input of its input type, and that `Param` carries the input as its
value; nothing is validated, so the empty string is accepted by the five
scalar constructors and the nil interface, an empty object and an empty list
are accepted by `ResponseProfile`. -/
theorem constructors_total (v : String) (x : GoValue) :
    ((∃ p, KS v = p ∧ p.value = GoValue.str v) ∧
     (∃ p, Language v = p ∧ p.value = GoValue.str v) ∧
     (∃ p, RequestId v = p ∧ p.value = GoValue.str v) ∧
     (∃ p, Currency v = p ∧ p.value = GoValue.str v) ∧
     (∃ p, UserId v = p ∧ p.value = GoValue.str v) ∧
     (∃ p, ResponseProfile x = p ∧ p.value = x)) ∧
    (KS "" = ⟨"ks", GoValue.str "", true⟩ ∧
     Language "" = ⟨"language", GoValue.str "", true⟩ ∧
     RequestId "" = ⟨"x-kaltura-session-id", GoValue.str "", false⟩ ∧
     Currency "" = ⟨"currency", GoValue.str "", true⟩ ∧
     UserId "" = ⟨"userId", GoValue.str "", true⟩) ∧
    (ResponseProfile GoValue.nil = ⟨"responseProfile", GoValue.nil, true⟩ ∧
     ResponseProfile (GoValue.object []) =
       ⟨"responseProfile", GoValue.object [], true⟩ ∧
     ResponseProfile (GoValue.list []) =
       ⟨"responseProfile", GoValue.list [], true⟩) :=
  ⟨⟨⟨_, rfl, rfl⟩, ⟨_, rfl, rfl⟩, ⟨_, rfl, rfl⟩, ⟨_, rfl, rfl⟩, ⟨_, rfl, rfl⟩,
      ⟨_, rfl, rfl⟩⟩,
    ⟨rfl, rfl, rfl, rfl, rfl⟩, ⟨rfl, rfl, rfl⟩⟩

/-- C5: every constructor is deterministic.  For equal inputs `v = w` (and
`x = y` for `ResponseProfile`) the two results of each of the six constructors
are equal, field by field: same `key`, same `value`, same `inBody`. -/
theorem constructors_deterministic (v w : String) (x y : GoValue)
    (hvw : v = w) (hxy : x = y) :
    (KS v = KS w ∧ (KS v).FieldsEq (KS w)) ∧
    (Language v = Language w ∧ (Language v).FieldsEq (Language w)) ∧
    (RequestId v = RequestId w ∧ (RequestId v).FieldsEq (RequestId w)) ∧
    (Currency v = Currency w ∧ (Currency v).FieldsEq (Currency w)) ∧
    (UserId v = UserId w ∧ (UserId v).FieldsEq (UserId w)) ∧
    (ResponseProfile x = ResponseProfile y ∧
      (ResponseProfile x).FieldsEq (ResponseProfile y)) := by
  subst hvw
  subst hxy
  exact ⟨⟨rfl, rfl, rfl, rfl⟩, ⟨rfl, rfl, rfl, rfl⟩, ⟨rfl, rfl, rfl, rfl⟩,
    ⟨rfl, rfl, rfl, rfl⟩, ⟨rfl, rfl, rfl, rfl⟩, ⟨rfl, rfl, rfl, rfl⟩⟩

/-- Witness of C5 at `v = w = "en"` and `x = y = includeProfile`. -/
theorem constructors_deterministic_witness :
    ("en" = "en" ∧ includeProfile = includeProfile) ∧
    ((KS "en" = KS "en" ∧ (KS "en").FieldsEq (KS "en")) ∧
     (Language "en" = Language "en" ∧ (Language "en").FieldsEq (Language "en")) ∧
     (RequestId "en" = RequestId "en" ∧
       (RequestId "en").FieldsEq (RequestId "en")) ∧
     (Currency "en" = Currency "en" ∧ (Currency "en").FieldsEq (Currency "en")) ∧
     (UserId "en" = UserId "en" ∧ (UserId "en").FieldsEq (UserId "en")) ∧
     (ResponseProfile includeProfile = ResponseProfile includeProfile ∧
       (ResponseProfile includeProfile).FieldsEq (ResponseProfile includeProfile))) :=
  ⟨⟨rfl, rfl⟩, constructors_deterministic "en" "en" includeProfile includeProfile rfl rfl⟩

/-- C6: for each of the six constructors and any two inputs, equal or not, the
two results have the same `key` and the same `inBody`: key and placement
depend on the constructor alone, never on the supplied value. -/
theorem key_and_placement_fixed (v w : String) (x y : GoValue) :
    ((KS v).key = (KS w).key ∧ (KS v).inBody = (KS w).inBody) ∧
    ((Language v).key = (Language w).key ∧
      (Language v).inBody = (Language w).inBody) ∧
    ((RequestId v).key = (RequestId w).key ∧
      (RequestId v).inBody = (RequestId w).inBody) ∧
    ((Currency v).key = (Currency w).key ∧
      (Currency v).inBody = (Currency w).inBody) ∧
    ((UserId v).key = (UserId w).key ∧ (UserId v).inBody = (UserId w).inBody) ∧
    ((ResponseProfile x).key = (ResponseProfile y).key ∧
      (ResponseProfile x).inBody = (ResponseProfile y).inBody) :=
  ⟨⟨rfl, rfl⟩, ⟨rfl, rfl⟩, ⟨rfl, rfl⟩, ⟨rfl, rfl⟩, ⟨rfl, rfl⟩, ⟨rfl, rfl⟩⟩

/-- C7: the `Param` returned by any call of any of the six constructors, on
any input (the empty string included), has a non-empty key, and the keys that
calls produce are exactly `"ks"`, `"language"`, `"x-kaltura-session-id"`,
`"currency"`, `"userId"` and `"responseProfile"`. -/
theorem key_nonempty_and_known :
    (∀ c : Call, c.result.key ≠ "") ∧
    (∀ k : String, (∃ c : Call, c.result.key = k) ↔
      k ∈ ["ks", "language", "x-kaltura-session-id", "currency", "userId",
        "responseProfile"]) ∧
    (KS "").key ≠ "" := by
  refine ⟨?_, ?_, ?_⟩
  · intro c
    cases c <;>
      simp [Call.result, KS, Language, RequestId, Currency, UserId, ResponseProfile]
  · intro k
    constructor
    · rintro ⟨c, rfl⟩
      cases c <;>
        simp [Call.result, KS, Language, RequestId, Currency, UserId,
          ResponseProfile]
    · intro hk
      simp only [List.mem_cons, List.mem_singleton, List.not_mem_nil, or_false] at hk
      rcases hk with h | h | h | h | h | h
      · exact ⟨Call.KS "", by rw [h]; rfl⟩
      · exact ⟨Call.Language "", by rw [h]; rfl⟩
      · exact ⟨Call.RequestId "", by rw [h]; rfl⟩
      · exact ⟨Call.Currency "", by rw [h]; rfl⟩
      · exact ⟨Call.UserId "", by rw [h]; rfl⟩
      · exact ⟨Call.ResponseProfile GoValue.nil, by rw [h]; rfl⟩
  · simp [KS]

/-- C9: each constructor is injective in its argument.  For each of the six
constructors, equal results force equal arguments, and two different
arguments give two different `Param`s, which differ in the `value` field and
only there. -/
theorem constructors_injective (v w : String) (x y : GoValue) :
    ((KS v = KS w → v = w) ∧ (v ≠ w → (KS v).DiffersInValueOnly (KS w))) ∧
    ((Language v = Language w → v = w) ∧
      (v ≠ w → (Language v).DiffersInValueOnly (Language w))) ∧
    ((RequestId v = RequestId w → v = w) ∧
      (v ≠ w → (RequestId v).DiffersInValueOnly (RequestId w))) ∧
    ((Currency v = Currency w → v = w) ∧
      (v ≠ w → (Currency v).DiffersInValueOnly (Currency w))) ∧
    ((UserId v = UserId w → v = w) ∧
      (v ≠ w → (UserId v).DiffersInValueOnly (UserId w))) ∧
    ((ResponseProfile x = ResponseProfile y → x = y) ∧
      (x ≠ y → (ResponseProfile x).DiffersInValueOnly (ResponseProfile y))) := by
  refine ⟨⟨?_, ?_⟩, ⟨?_, ?_⟩, ⟨?_, ?_⟩, ⟨?_, ?_⟩, ⟨?_, ?_⟩, ⟨?_, ?_⟩⟩ <;> intro h
  · simpa [KS] using h
  · simpa [Param.DiffersInValueOnly, KS] using h
  · simpa [Language] using h
  · simpa [Param.DiffersInValueOnly, Language] using h
  · simpa [RequestId] using h
  · simpa [Param.DiffersInValueOnly, RequestId] using h
  · simpa [Currency] using h
  · simpa [Param.DiffersInValueOnly, Currency] using h
  · simpa [UserId] using h
  · simpa [Param.DiffersInValueOnly, UserId] using h
  · simpa [ResponseProfile] using h
  · simpa [Param.DiffersInValueOnly, ResponseProfile] using h

/-- Witness of C9: `Language "en"` and `Language "fr"` differ, in the value
only, and `ResponseProfile` separates the nil interface from a structured
value. -/
theorem constructors_injective_witness :
    "en" ≠ "fr" ∧ (Language "en").DiffersInValueOnly (Language "fr") ∧
    (ResponseProfile GoValue.nil = ResponseProfile GoValue.nil →
      GoValue.nil = GoValue.nil) :=
  ⟨by decide,
    (constructors_injective "en" "fr" GoValue.nil GoValue.nil).2.1.2 (by decide),
    (constructors_injective "en" "fr" GoValue.nil GoValue.nil).2.2.2.2.2.1⟩

/-- C10: the six constructors use pairwise distinct keys.  Calls of two
different constructors return `Param`s with different keys, whatever the
arguments, so the two `Param`s are different too; read the other way, equal
keys mean the same constructor. -/
theorem distinct_constructors_distinct_keys (c d : Call) (h : c.ctor ≠ d.ctor) :
    c.result.key ≠ d.result.key ∧ c.result ≠ d.result := by
  have hk : c.result.key ≠ d.result.key := by
    cases c <;> cases d <;>
      first
        | exact absurd rfl h
        | simp [Call.result, KS, Language, RequestId, Currency, UserId,
            ResponseProfile]
  exact ⟨hk, fun e => hk (congrArg Param.key e)⟩

/-- Witness of C10: `Language "x"` and `Currency "x"` have different keys and
are different `Param`s, although the argument is the same. -/
theorem distinct_constructors_distinct_keys_witness :
    (Call.Language "x").ctor ≠ (Call.Currency "x").ctor ∧
    (Language "x").key ≠ (Currency "x").key ∧ Language "x" ≠ Currency "x" :=
  ⟨by decide,
    distinct_constructors_distinct_keys (Call.Language "x") (Call.Currency "x")
      (by decide)⟩

/-- C11: placement is a function of the key.  For the `Param` returned by any
call of any of the six constructors, `inBody` is false exactly when the key is
`"x-kaltura-session-id"`, and exactly when the call is a call of `RequestId`:
`RequestId` is the only header-bound constructor, and the other five return a
body-bound `Param`. -/
theorem placement_determined_by_key (c : Call) :
    (c.result.inBody = false ↔ c.result.key = "x-kaltura-session-id") ∧
    (c.result.inBody = false ↔ c.ctor = Ctor.RequestId) ∧
    (c.result.inBody = true ↔ c.ctor ≠ Ctor.RequestId) := by
  cases c <;>
    simp [Call.result, Call.ctor, KS, Language, RequestId, Currency, UserId,
      ResponseProfile]

end kalturaclient
